import Mathlib

/-!
Verification development for the portfolio-engine repository.

The definitions below are a shallow embedding of the TypeScript sources
`src/services/scoring.ts`, `src/services/composition.ts` and
`src/services/block-builder.ts` (together with the data model from
`src/types/content.ts`).

Modelling conventions:
* JavaScript numbers are modelled as rationals (`ℚ`); integer counters
  (view counts, stars, pixel sizes, …) as `Nat`.
* A TypeScript optional field `x?: T` is modelled as `Option T`; JavaScript
  truthiness of a number (≠ 0), a string (≠ "") and a boolean is made
  explicit through `truthyN`, `truthyS`, `truthyB`.
* An absent `extracted_data` object behaves, through the `?.` accesses used
  by the code, exactly like a record all of whose fields are absent, so
  `extracted_data` is modelled as a record with all-`Option` fields.
* Clock reads (`new Date()`, `Date.now()`) and id generation (`uuidv4`) are
  modelled by explicit parameters: a millisecond timestamp `nowMs : Int`
  (resp. an ISO string) and a `Nat` counter for fresh ids.
* `Array.prototype.sort`, which is stable, is modelled by `List.mergeSort`
  (for the batch scorer) and by a stable insertion sort (for the section
  sort); both are the unique stable sort for the given comparator.
-/

/-- The eight portfolio categories (`Category` in `types/content.ts`). -/
inductive Category
  | Finance | Entertainment | Design | Legal | Tech | Marketing | Influencers | Business
deriving DecidableEq, Repr

/-- `ContentType` from `types/content.ts`. -/
inductive ContentType
  | video | image | pdf | text | code | external_link
deriving DecidableEq, Repr

/-- `ContentSource` from `types/content.ts`. -/
inductive ContentSource
  | youtube | github | upload | input | instagram | linkedin | tiktok | twitter
  | behance | dribbble | website | other
deriving DecidableEq, Repr

/-- The `text_type` tag of text content. -/
inductive TextType
  | bio | intro | about | testimonial | description | general
deriving DecidableEq, Repr

/-- One entry of `extracted_data.top_repos`. -/
structure TopRepo where
  name : String
  description : String
  stars : Nat
  language : String
  url : String
deriving DecidableEq, Repr

/-- `ExtractedData` from `types/content.ts`: every field optional.  Only the
fields actually read by the scorer and composer are carried. -/
structure ExtractedData where
  thumbnail_url : Option String := none
  embed_url : Option String := none
  view_count : Option Nat := none
  like_count : Option Nat := none
  duration_seconds : Option Nat := none
  stars : Option Nat := none
  forks : Option Nat := none
  language : Option String := none
  topics : Option (List String) := none
  readme_preview : Option String := none
  is_profile : Option Bool := none
  followers : Option Nat := none
  public_repos : Option Nat := none
  bio : Option String := none
  company : Option String := none
  location : Option String := none
  top_repos : Option (List TopRepo) := none
  width : Option Nat := none
  height : Option Nat := none
  page_count : Option Nat := none
  extracted_text : Option String := none
  is_resume : Option Bool := none
  skills : Option (List String) := none
  text_type : Option TextType := none
  tags : Option (List String) := none
  description : Option String := none
deriving DecidableEq, Repr

/-- `NormalizedContent` from `types/content.ts`.  `created_at` (an ISO string
in the source, consumed only through `new Date(...).getTime()`) is modelled
directly as a millisecond epoch timestamp. -/
structure NormalizedContent where
  content_id : String
  type : ContentType
  source : ContentSource
  original_url : Option String := none
  file_path : Option String := none
  title : String := ""
  description : String := ""
  extracted_data : ExtractedData := {}
  created_at : Int := 0
deriving DecidableEq, Repr

/-- `ContentScores`: the five sub-scores. -/
structure ContentScores where
  relevance : ℚ
  quality : ℚ
  credibility : ℚ
  engagement : ℚ
  freshness : ℚ
deriving DecidableEq, Repr

/-- `ScoredContent`: a normalized content item plus its scores. -/
structure ScoredContent extends NormalizedContent where
  scores : ContentScores
  final_score : ℚ
deriving DecidableEq, Repr

/-- JavaScript truthiness of an optional number (absent or `0` is falsy). -/
def truthyN (o : Option Nat) : Bool :=
  match o with
  | none => false
  | some n => n != 0

/-- JavaScript truthiness of an optional string (absent or `""` is falsy). -/
def truthyS (o : Option String) : Bool :=
  match o with
  | none => false
  | some s => s != ""

/-- JavaScript truthiness of an optional boolean. -/
def truthyB (o : Option Bool) : Bool := o.getD false

/-- `String.includes` of JavaScript: substring containment. -/
def strIncludes (hay needle : String) : Bool := decide (needle.data <:+: hay.data)

/-- `Math.round`: round to the nearest integer, halves towards `+∞`. -/
def mathRound (x : ℚ) : Int := ⌊x + 5/10⌋

/-- `CATEGORY_WEIGHTS` from `scoring.ts`. -/
def CATEGORY_WEIGHTS : Category → ContentScores
  | .Finance =>
    { relevance := 25/100, quality := 20/100, credibility := 35/100, engagement := 10/100, freshness := 10/100 }
  | .Entertainment =>
    { relevance := 20/100, quality := 30/100, credibility := 10/100, engagement := 30/100, freshness := 10/100 }
  | .Design =>
    { relevance := 25/100, quality := 35/100, credibility := 10/100, engagement := 20/100, freshness := 10/100 }
  | .Legal =>
    { relevance := 20/100, quality := 15/100, credibility := 40/100, engagement := 5/100, freshness := 20/100 }
  | .Tech =>
    { relevance := 30/100, quality := 25/100, credibility := 20/100, engagement := 15/100, freshness := 10/100 }
  | .Marketing =>
    { relevance := 25/100, quality := 20/100, credibility := 15/100, engagement := 30/100, freshness := 10/100 }
  | .Influencers =>
    { relevance := 15/100, quality := 25/100, credibility := 10/100, engagement := 40/100, freshness := 10/100 }
  | .Business =>
    { relevance := 25/100, quality := 15/100, credibility := 35/100, engagement := 10/100, freshness := 15/100 }

/-- `CATEGORY_KEYWORDS` from `scoring.ts`. -/
def CATEGORY_KEYWORDS : Category → List String
  | .Finance =>
    ["finance", "financial", "investment", "banking", "accounting", "cfo",
     "revenue", "profit", "roi", "portfolio", "audit", "tax", "budget",
     "forecast", "valuation", "equity", "debt", "capital", "cash flow"]
  | .Entertainment =>
    ["entertainment", "film", "music", "video", "content", "creative",
     "production", "acting", "directing", "streaming", "media", "show",
     "performance", "artist", "celebrity", "viral", "views"]
  | .Design =>
    ["design", "ui", "ux", "graphic", "visual", "brand", "logo", "creative",
     "interface", "prototype", "figma", "sketch", "adobe", "illustration",
     "typography", "color", "layout", "wireframe", "aesthetic"]
  | .Legal =>
    ["legal", "law", "attorney", "lawyer", "litigation", "contract",
     "compliance", "regulation", "court", "case", "settlement", "rights",
     "intellectual property", "patent", "trademark", "counsel"]
  | .Tech =>
    ["tech", "technology", "software", "engineering", "developer", "code",
     "programming", "api", "cloud", "data", "ai", "machine learning",
     "startup", "product", "architecture", "system", "scale", "devops"]
  | .Marketing =>
    ["marketing", "growth", "seo", "sem", "social", "campaign", "brand",
     "conversion", "analytics", "content", "digital", "advertising",
     "engagement", "reach", "impression", "click", "lead", "funnel"]
  | .Influencers =>
    ["influencer", "creator", "followers", "viral", "social media",
     "instagram", "tiktok", "youtube", "brand deal", "sponsorship",
     "engagement rate", "audience", "content creator", "reach"]
  | .Business =>
    ["business", "strategy", "consulting", "management", "operations",
     "startup", "entrepreneur", "ceo", "founder", "leadership", "growth",
     "scale", "revenue", "team", "process", "efficiency", "optimization"]

/-- `scoreRelevance` from `scoring.ts`.  The four `typeBoost` assignments of
the source have mutually exclusive conditions, so the if-chain below is
equivalent to the sequence of assignments. -/
def scoreRelevance (content : NormalizedContent) (category : Category) : ℚ :=
  let keywords := CATEGORY_KEYWORDS category
  let extractedText := (content.extracted_data.extracted_text).getD ""
  let searchText := (content.title ++ " " ++ content.description ++ " " ++ extractedText).toLower
  let matchCount := keywords.countP (fun keyword => strIncludes searchText keyword.toLower)
  let relevance := min ((matchCount : ℚ) / 5) 1
  let typeBoost : ℚ :=
    if category = .Tech ∧ content.source = .github then 2/10
    else if category = .Entertainment ∧ content.type = .video then 2/10
    else if category = .Design ∧ content.type = .image then 2/10
    else if category = .Finance ∧ content.type = .pdf then 1/10
    else 0
  min (relevance + typeBoost) 1

/-- `scoreQuality` from `scoring.ts`. -/
def scoreQuality (content : NormalizedContent) : ℚ :=
  let score : ℚ := 5/10
  let score := score + (if truthyS content.extracted_data.thumbnail_url then 1/10 else 0)
  let score := score + (if content.description ≠ "" ∧ content.description.length > 50 then 1/10 else 0)
  let score := score +
    (if content.type = .video then
      (let width := content.extracted_data.width
       let height := content.extracted_data.height
       (if truthyN width ∧ truthyN height then
          (if width.getD 0 ≥ 1280 ∨ height.getD 0 ≥ 720 then 15/100 else 0) +
          (if width.getD 0 ≥ 3840 ∨ height.getD 0 ≥ 2160 then 1/10 else 0)
        else 0)) +
      (if truthyN content.extracted_data.duration_seconds ∧
          content.extracted_data.duration_seconds.getD 0 > 0 then 1/10 else 0)
     else 0)
  let score := score +
    (if content.type = .image then
      (let width := content.extracted_data.width
       let height := content.extracted_data.height
       if truthyN width ∧ truthyN height ∧ width.getD 0 ≥ 1000 ∧ height.getD 0 ≥ 1000
       then 15/100 else 0)
     else 0)
  let score := score +
    (if content.type = .pdf ∧ truthyS content.extracted_data.extracted_text then
       15/100 + (if truthyN content.extracted_data.page_count ∧
                  content.extracted_data.page_count.getD 0 > 1 then 5/100 else 0)
     else 0)
  let score := score +
    (if content.source = .github ∧ truthyS content.extracted_data.readme_preview then
       (if (content.extracted_data.readme_preview.getD "").length > 200 then 15/100 else 0)
     else 0)
  min score 1

/-- `scoreCredibility` from `scoring.ts`. -/
def scoreCredibility (content : NormalizedContent) : ℚ :=
  let score : ℚ := 3/10
  let score := score + (if content.source = .youtube ∨ content.source = .github then 2/10 else 0)
  let score := score +
    (if content.source = .youtube then
      (let views := content.extracted_data.view_count
       if truthyN views then
         (if views.getD 0 > 1000 then 1/10 else 0) +
         (if views.getD 0 > 10000 then 1/10 else 0) +
         (if views.getD 0 > 100000 then 1/10 else 0)
       else 0)
     else 0)
  let score := score +
    (if content.source = .github then
      (let stars := content.extracted_data.stars
       if truthyN stars then
         (if stars.getD 0 > 10 then 1/10 else 0) +
         (if stars.getD 0 > 100 then 1/10 else 0) +
         (if stars.getD 0 > 1000 then 15/100 else 0)
       else 0)
     else 0)
  let score := score + (if content.type = .pdf then 15/100 else 0)
  let score := score - (if content.type = .external_link then 1/10 else 0)
  max 0 (min score 1)

/-- `scoreEngagement` from `scoring.ts`. -/
def scoreEngagement (content : NormalizedContent) : ℚ :=
  let score : ℚ := 3/10
  let score := score + (if content.type = .video then 25/100 else 0)
  let score := score + (if content.type = .image then 2/10 else 0)
  let score := score +
    (if content.source = .youtube then
      (let views := content.extracted_data.view_count
       let likes := content.extracted_data.like_count
       (if truthyN views then
          (if views.getD 0 > 10000 then 15/100 else 0) +
          (if views.getD 0 > 100000 then 15/100 else 0)
        else 0) +
       (if truthyN likes ∧ truthyN views then
          (if ((likes.getD 0 : ℚ) / (views.getD 0 : ℚ)) > 3/100 then 1/10 else 0)
        else 0))
     else 0)
  let score := score +
    (if content.type = .external_link ∧
        (content.source = .instagram ∨ content.source = .tiktok ∨ content.source = .linkedin)
     then 15/100 else 0)
  let score := score - (if content.type = .text ∨ content.type = .pdf then 1/10 else 0)
  max 0 (min score 1)

/-- `scoreFreshness` from `scoring.ts`; `nowMs` is the clock read
`new Date().getTime()` made explicit. -/
def scoreFreshness (content : NormalizedContent) (nowMs : Int) : ℚ :=
  let ageInDays : ℚ := ((nowMs - content.created_at : ℤ) : ℚ) / (1000 * 60 * 60 * 24)
  if ageInDays < 30 then 1
  else if ageInDays < 90 then 8/10
  else if ageInDays < 365 then 6/10
  else if ageInDays < 730 then 4/10
  else 2/10

/-- `scoreContent` from `scoring.ts`. -/
def scoreContent (content : NormalizedContent) (category : Category) (nowMs : Int) :
    ScoredContent :=
  let scores : ContentScores :=
    { relevance := scoreRelevance content category
      quality := scoreQuality content
      credibility := scoreCredibility content
      engagement := scoreEngagement content
      freshness := scoreFreshness content nowMs }
  let weights := CATEGORY_WEIGHTS category
  let finalScore :=
    scores.relevance * weights.relevance +
    scores.quality * weights.quality +
    scores.credibility * weights.credibility +
    scores.engagement * weights.engagement +
    scores.freshness * weights.freshness
  { toNormalizedContent := content
    scores := scores
    final_score := (mathRound (finalScore * 100) : ℚ) / 100 }

/-- `scoreContentBatch` from `scoring.ts`: score, then stable-sort by
`final_score` descending (`Array.prototype.sort` is stable). -/
def scoreContentBatch (contents : List NormalizedContent) (category : Category)
    (nowMs : Int) : List ScoredContent :=
  (contents.map (fun content => scoreContent content category nowMs)).mergeSort
    (fun a b => decide (b.final_score ≤ a.final_score))

/-! ## Composition engine: data model (`types/portfolio.ts` shapes) -/

/-- The five fixed section ids. -/
inductive SectionId
  | hook | credibility | work | process | action
deriving DecidableEq, Repr

/-- The ten fixed block types. -/
inductive BlockType
  | media | expandable_text | metric | comparison | gallery | timeline
  | external_link | scroll_container | hotspot_media | cta
deriving DecidableEq, Repr

/-- Block visibility `initial` values. -/
inductive VisInitial
  | expanded | collapsed
deriving DecidableEq, Repr

/-- Block visibility `priority` values. -/
inductive VisPriority
  | high | medium
deriving DecidableEq, Repr

structure BlockVisibility where
  initial : VisInitial
  priority : VisPriority
deriving DecidableEq, Repr

structure BlockStyle where
  padding : String
deriving DecidableEq, Repr

structure MediaSource where
  url : String
  quality : String
  mime_type : String
deriving DecidableEq, Repr

structure Thumbnail where
  url : String
  blurhash : Option String
deriving DecidableEq, Repr

structure Playback where
  autoplay : Bool
  loop : Bool
  muted : Bool
  controls : Bool
deriving DecidableEq, Repr

structure MediaContent where
  media_type : String
  sources : List MediaSource
  thumbnail : Thumbnail
  alt_text : String
  caption : Option String
  playback : Option Playback
  aspect_ratio : String
deriving DecidableEq, Repr

structure TextPreview where
  text : String
  max_lines : Nat
deriving DecidableEq, Repr

structure FullContent where
  text : String
  format : String
deriving DecidableEq, Repr

structure ExpandableTextContent where
  preview : TextPreview
  full_content : FullContent
  header : String
  tags : List String
deriving DecidableEq, Repr

structure MetricTrend where
  direction : String
  percentage : ℚ
deriving DecidableEq, Repr

structure MetricEntry where
  label : String
  value : String
  unit : Option String
  trend : Option MetricTrend
deriving DecidableEq, Repr

structure MetricContent where
  metrics : List MetricEntry
  layout : String
  style : String
deriving DecidableEq, Repr

structure ComparisonImage where
  url : String
  label : String
deriving DecidableEq, Repr

structure ComparisonSlider where
  initial_position : Nat
  orientation : String
deriving DecidableEq, Repr

structure ComparisonContent where
  before : ComparisonImage
  after : ComparisonImage
  slider : ComparisonSlider
  caption : Option String
deriving DecidableEq, Repr

structure GalleryItem where
  url : String
  thumbnail_url : String
  caption : Option String
  media_type : String
deriving DecidableEq, Repr

structure GalleryLayout where
  type : String
  columns : Nat
deriving DecidableEq, Repr

structure Lightbox where
  enabled : Bool
  show_captions : Bool
deriving DecidableEq, Repr

structure GalleryContent where
  items : List GalleryItem
  layout : GalleryLayout
  lightbox : Lightbox
deriving DecidableEq, Repr

structure TimelineMarker where
  icon : String
  color : String
deriving DecidableEq, Repr

structure TimelineEntry where
  date : String
  title : String
  description : String
  marker : TimelineMarker
deriving DecidableEq, Repr

structure TimelineContent where
  entries : List TimelineEntry
  orientation : String
  style : String
deriving DecidableEq, Repr

structure LinkPreview where
  title : String
  description : String
  thumbnail_url : Option String
  favicon_url : Option String
deriving DecidableEq, Repr

structure ExternalLinkContent where
  url : String
  platform : String
  preview : LinkPreview
  style : String
  open_in : String
deriving DecidableEq, Repr

structure SnapConfig where
  enabled : Bool
  alignment : String
deriving DecidableEq, Repr

structure ScrollIndicators where
  «show» : Bool
  style : String
deriving DecidableEq, Repr

/-- A child block of a scroll container.  In the source the `children` field
has type `Block[]`, but `buildScrollContainerBlock` only ever creates a
single media block as child, so children are modelled as media-shaped blocks
(avoiding a recursive block type). -/
structure ChildMediaBlock where
  block_id : String
  block_type : BlockType
  content : MediaContent
  visibility : BlockVisibility
  style : BlockStyle
deriving DecidableEq, Repr

structure ScrollContainerContent where
  scroll_direction : String
  children : List ChildMediaBlock
  snap : SnapConfig
  indicators : ScrollIndicators
deriving DecidableEq, Repr

structure BaseMedia where
  url : String
  media_type : String
deriving DecidableEq, Repr

structure HotspotInteraction where
  tap_behavior : String
  animation : String
deriving DecidableEq, Repr

structure HotspotMediaContent where
  base_media : BaseMedia
  hotspots : List Unit
  interaction : HotspotInteraction
deriving DecidableEq, Repr

structure CTAAction where
  label : String
  action_type : String
  payload : List (String × String)
  style : Option String
deriving DecidableEq, Repr

structure CTAContent where
  primary_action : CTAAction
  secondary_action : Option CTAAction
  urgency_text : Option String
deriving DecidableEq, Repr

/-- The type-specific payload of a block, a tagged union keyed by the block
type. -/
inductive BlockContent
  | media (c : MediaContent)
  | expandable_text (c : ExpandableTextContent)
  | metric (c : MetricContent)
  | comparison (c : ComparisonContent)
  | gallery (c : GalleryContent)
  | timeline (c : TimelineContent)
  | external_link (c : ExternalLinkContent)
  | scroll_container (c : ScrollContainerContent)
  | hotspot_media (c : HotspotMediaContent)
  | cta (c : CTAContent)
deriving DecidableEq, Repr

structure Block where
  block_id : String
  block_type : BlockType
  content : BlockContent
  visibility : BlockVisibility
  style : BlockStyle
deriving DecidableEq, Repr

structure SectionVisibility where
  initial : String
  min_content_required : Nat
deriving DecidableEq, Repr

structure Section where
  section_id : SectionId
  order : Nat
  layout : String
  visibility : SectionVisibility
  blocks : List Block
deriving DecidableEq, Repr

/-! ## Composition engine: section configuration and assignment
(`services/composition.ts`) -/

/-- One entry of `SECTION_CONFIGS`. -/
structure SectionConfig where
  id : SectionId
  order : Nat
  required : Bool
  minBlocks : Nat
  maxBlocks : Nat
  preferredTypes : List BlockType
  contentFilter : ScoredContent → Category → Bool

/-- The `hook` entry of `SECTION_CONFIGS`.  The filter's early `return true`
branches are rendered as a boolean disjunction; a text item whose
`text_type` is neither `intro` nor `bio` falls through to the final
`final_score > 0.6` test, exactly as in the source. -/
def hookConfig : SectionConfig where
  id := .hook
  order := 1
  required := true
  minBlocks := 1
  maxBlocks := 2
  preferredTypes := [.metric, .media, .expandable_text]
  contentFilter := fun content _category =>
    content.type == ContentType.video ||
    content.source == ContentSource.youtube ||
    (content.type == ContentType.text &&
      (content.extracted_data.text_type == some TextType.intro ||
       content.extracted_data.text_type == some TextType.bio)) ||
    decide (content.final_score > mkRat 6 10)

/-- The `credibility` entry of `SECTION_CONFIGS`.  Note that for an
`external_link` item the filter returns directly (no fall-through): only
social-profile sources pass. -/
def credibilityConfig : SectionConfig where
  id := .credibility
  order := 2
  required := true
  minBlocks := 1
  maxBlocks := 3
  preferredTypes := [.expandable_text, .external_link, .metric]
  contentFilter := fun content _category =>
    if content.type == ContentType.pdf then true
    else if content.type == ContentType.external_link then
      [ContentSource.github, ContentSource.linkedin, ContentSource.instagram,
       ContentSource.twitter, ContentSource.tiktok].contains content.source
    else if content.source == ContentSource.github then true
    else decide (content.scores.credibility > mkRat 5 10)

/-- The `work` entry of `SECTION_CONFIGS`. -/
def workConfig : SectionConfig where
  id := .work
  order := 3
  required := true
  minBlocks := 1
  maxBlocks := 6
  preferredTypes := [.gallery, .scroll_container, .media, .comparison, .external_link]
  contentFilter := fun content _category =>
    if content.type == ContentType.image then true
    else if content.type == ContentType.video then true
    else if content.type == ContentType.code then true
    else if content.type == ContentType.external_link then
      !([ContentSource.github, ContentSource.linkedin, ContentSource.instagram,
         ContentSource.twitter, ContentSource.tiktok].contains content.source)
    else if content.type == ContentType.text then false
    else if content.type == ContentType.pdf then false
    else decide (content.scores.quality > mkRat 4 10)

/-- The `process` entry of `SECTION_CONFIGS`.  A text item with a
non-matching `text_type` falls through to the pdf test (false for text) and
then to the final `return false`, hence the conjunction below. -/
def processConfig : SectionConfig where
  id := .process
  order := 4
  required := false
  minBlocks := 0
  maxBlocks := 2
  preferredTypes := [.timeline, .expandable_text, .hotspot_media]
  contentFilter := fun content _category =>
    (content.type == ContentType.text &&
      (content.extracted_data.text_type == some TextType.about ||
       content.extracted_data.text_type == some TextType.description ||
       content.extracted_data.text_type == some TextType.general)) ||
    (content.type == ContentType.pdf && !(truthyB content.extracted_data.is_resume))

/-- The `action` entry of `SECTION_CONFIGS`: the CTA is generated, never
filled from content. -/
def actionConfig : SectionConfig where
  id := .action
  order := 5
  required := true
  minBlocks := 1
  maxBlocks := 1
  preferredTypes := [.cta]
  contentFilter := fun _ _ => false

/-- `SECTION_CONFIGS` from `composition.ts`, in source order. -/
def SECTION_CONFIGS : List SectionConfig :=
  [hookConfig, credibilityConfig, workConfig, processConfig, actionConfig]

/-- `CATEGORY_HOOK_TYPES` from `composition.ts`. -/
def CATEGORY_HOOK_TYPES : Category → BlockType
  | .Finance => .metric
  | .Entertainment => .media
  | .Design => .comparison
  | .Legal => .expandable_text
  | .Tech => .media
  | .Marketing => .metric
  | .Influencers => .media
  | .Business => .metric

/-- The section→content map built by `assignContentToSections`; the
JavaScript `Map` is initialised with exactly the five section ids, so it is
modelled as a record with one list per section. -/
structure Assignments where
  hook : List ScoredContent
  credibility : List ScoredContent
  work : List ScoredContent
  process : List ScoredContent
  action : List ScoredContent

/-- `assignments.get(id)`. -/
def Assignments.get (a : Assignments) : SectionId → List ScoredContent
  | .hook => a.hook
  | .credibility => a.credibility
  | .work => a.work
  | .process => a.process
  | .action => a.action

/-- Replace one section's list. -/
def Assignments.set (a : Assignments) : SectionId → List ScoredContent → Assignments
  | .hook, v => { a with hook := v }
  | .credibility, v => { a with credibility := v }
  | .work, v => { a with work := v }
  | .process, v => { a with process := v }
  | .action, v => { a with action := v }

/-- The empty map produced by the initialisation loop of
`assignContentToSections`. -/
def initialAssignments : Assignments :=
  { hook := [], credibility := [], work := [], process := [], action := [] }

/-- One iteration of the first (greedy-fill) pass of
`assignContentToSections`.  The state is the assignment map together with
the `usedContent` set (a list queried only through `contains`). -/
def pass1Step (scoredContent : List ScoredContent) (category : Category)
    (st : Assignments × List String) (config : SectionConfig) :
    Assignments × List String :=
  if config.id == SectionId.action then st
  else
    let candidates :=
      ((scoredContent.filter (fun c => !(st.2.contains c.content_id))).filter
        (fun c => config.contentFilter c category)).take config.maxBlocks
    (st.1.set config.id ((st.1.get config.id) ++ candidates),
     st.2 ++ candidates.map (fun c => c.content_id))

/-- One iteration of the second (backfill) pass of
`assignContentToSections`. -/
def pass2Step (scoredContent : List ScoredContent)
    (st : Assignments × List String) (config : SectionConfig) :
    Assignments × List String :=
  if !config.required then st
  else if config.id == SectionId.action then st
  else
    let assigned := st.1.get config.id
    if assigned.length < config.minBlocks then
      let remaining :=
        (scoredContent.filter (fun c => !(st.2.contains c.content_id))).take
          (config.minBlocks - assigned.length)
      (st.1.set config.id (assigned ++ remaining),
       st.2 ++ remaining.map (fun c => c.content_id))
    else st

/-- `assignContentToSections` from `composition.ts`: greedy fill then
backfill, sharing one `usedContent` set. -/
def assignContentToSections (scoredContent : List ScoredContent)
    (category : Category) : Assignments :=
  let st0 := (initialAssignments, ([] : List String))
  let st1 := SECTION_CONFIGS.foldl (pass1Step scoredContent category) st0
  let st2 := SECTION_CONFIGS.foldl (pass2Step scoredContent) st1
  st2.1

/-- The `typeMapping` record of `selectBlockType`; it covers every content
type, so the lookup never yields `undefined`. -/
def typeMapping : ContentType → BlockType
  | .video => .media
  | .image => .media
  | .pdf => .expandable_text
  | .text => .expandable_text
  | .code => .expandable_text
  | .external_link => .external_link

/-- `selectBlockType` from `composition.ts`.  The two spots where the source
could fail are made explicit: the non-null assertion on the
`SECTION_CONFIGS.find` result is the outer `match` (`none` = crash), and the
`preferredTypes[0]` fallback is `head?` (`none` = `undefined`).  Totality is
the subject of a theorem below. -/
def selectBlockType (content : ScoredContent) (sectionId : SectionId)
    (category : Category) : Option BlockType :=
  match SECTION_CONFIGS.find? (fun c => c.id == sectionId) with
  | none => none
  | some sectionConfig =>
    if content.type = ContentType.pdf then some BlockType.expandable_text
    else if content.type = ContentType.text then some BlockType.expandable_text
    else if content.type = ContentType.external_link then some BlockType.external_link
    else if content.source = ContentSource.github ∧ truthyB content.extracted_data.is_profile then
      some BlockType.external_link
    else if sectionId = SectionId.hook then some (CATEGORY_HOOK_TYPES category)
    else
      let mappedType := typeMapping content.type
      if sectionConfig.preferredTypes.contains mappedType then some mappedType
      else sectionConfig.preferredTypes.head?

/-! ## Block builder (`services/block-builder.ts`) -/

/-- JavaScript `a || b` for an optional string `a`: first operand if truthy. -/
def jsOr (a : Option String) (b : String) : String :=
  match a with
  | some s => if s ≠ "" then s else b
  | none => b

/-- JavaScript `a || b` for plain strings. -/
def jsOrS (a b : String) : String := if a ≠ "" then a else b

/-- JavaScript `a || null` for an optional string. -/
def jsOrNull (a : Option String) : Option String :=
  match a with
  | some s => if s ≠ "" then some s else none
  | none => none

/-- `generateBlockId` (`'b_' + 12 uuid chars`), modelled by a counter. -/
def mkBlockId (n : Nat) : String := "b_" ++ toString n

/-- `Number.prototype.toFixed(1)` for a nonnegative rational. -/
def toFixed1 (q : ℚ) : String :=
  let n := mathRound (q * 10)
  toString (n / 10) ++ "." ++ toString (n % 10)

/-- `formatNumber` from `block-builder.ts`. -/
def formatNumber (num : Nat) : String :=
  if num ≥ 1000000 then toFixed1 ((num : ℚ) / 1000000) ++ "M"
  else if num ≥ 1000 then toFixed1 ((num : ℚ) / 1000) ++ "K"
  else toString num

/-- The base fields shared by all builders (`baseBlock` in `buildBlock`). -/
structure BaseBlock where
  block_id : String
  visibility : BlockVisibility
  style : BlockStyle
deriving DecidableEq, Repr

/-- The payload of `buildMediaBlock` (shared with the scroll container's
child block). -/
def buildMediaContent (content : ScoredContent) : MediaContent :=
  let isVideo := content.type = ContentType.video ∨ content.source = ContentSource.youtube
  { media_type := if isVideo then "video" else "image"
    sources := [{ url := jsOr content.file_path (jsOr content.extracted_data.embed_url "")
                  quality := "high"
                  mime_type := if isVideo then "video/mp4" else "image/jpeg" }]
    thumbnail := { url := jsOr content.extracted_data.thumbnail_url (jsOr content.file_path "")
                   blurhash := none }
    alt_text := jsOrS content.title "Media content"
    caption := if content.description ≠ "" then some content.description else none
    playback := if isVideo then
        some { autoplay := true, loop := true, muted := true, controls := true }
      else none
    aspect_ratio := "16:9" }

/-- `buildMediaBlock`. -/
def buildMediaBlock (content : ScoredContent) (base : BaseBlock) : Block :=
  { block_id := base.block_id
    block_type := .media
    content := .media (buildMediaContent content)
    visibility := base.visibility
    style := base.style }

/-- `buildExpandableTextBlock`. -/
def buildExpandableTextBlock (content : ScoredContent) (base : BaseBlock) : Block :=
  let ed := content.extracted_data
  let fullText := jsOr ed.extracted_text (jsOr ed.description content.description)
  let fullText :=
    if content.source = ContentSource.github ∧ truthyB ed.is_profile then
      let parts : List String :=
        (if truthyS ed.bio then [ed.bio.getD ""] else []) ++
        (if ed.followers ≠ none then
          ["\n\n📊 " ++ toString (ed.followers.getD 0) ++ " followers • " ++
           toString (ed.public_repos.getD 0) ++ " repositories"]
         else []) ++
        (if truthyS ed.location then ["📍 " ++ ed.location.getD ""] else []) ++
        (if truthyS ed.company then ["🏢 " ++ ed.company.getD ""] else []) ++
        (if ed.top_repos ≠ none ∧ (ed.top_repos.getD []).length > 0 then
          "\n\n🔥 Top Projects:" ::
          ((ed.top_repos.getD []).take 3).map (fun repo =>
            "• " ++ repo.name ++ " - " ++ jsOrS repo.description "No description" ++
            " (⭐" ++ toString repo.stars ++ ")")
         else [])
      jsOrS (String.intercalate "\n" parts) "GitHub Profile"
    else fullText
  let preview := fullText.take 200 ++ (if fullText.length > 200 then "..." else "")
  let tags : List String := ((ed.tags <|> ed.topics) <|> ed.skills).getD []
  let header := jsOrS content.title "Details"
  let header :=
    if content.type = ContentType.text ∧ ed.text_type ≠ none then
      -- the `typeHeaders` lookup; it covers all six text types, so the
      -- `|| header` fallback of the source is dead
      match ed.text_type.getD TextType.general with
      | .bio => "About Me"
      | .intro => "Introduction"
      | .about => "About"
      | .testimonial => "Testimonial"
      | .description => "Description"
      | .general => jsOrS content.title "Details"
    else header
  { block_id := base.block_id
    block_type := .expandable_text
    content := .expandable_text
      { preview := { text := preview, max_lines := 3 }
        full_content := { text := fullText, format := "plain" }
        header := header
        tags := tags.take 5 }
    visibility := base.visibility
    style := base.style }

/-- `buildMetricBlock`. -/
def buildMetricBlock (content : ScoredContent) (base : BaseBlock) : Block :=
  let ed := content.extracted_data
  let metrics : List MetricEntry :=
    (if truthyN ed.view_count then
      [{ label := "Views", value := formatNumber (ed.view_count.getD 0), unit := none
         trend := some { direction := "up", percentage := 0 } }]
     else []) ++
    (if truthyB ed.is_profile then
      (if ed.followers ≠ none then
        [{ label := "Followers", value := formatNumber (ed.followers.getD 0)
           unit := none, trend := none }]
       else []) ++
      (if ed.public_repos ≠ none then
        [{ label := "Repos", value := formatNumber (ed.public_repos.getD 0)
           unit := none, trend := none }]
       else [])
     else []) ++
    (if ed.stars ≠ none then
      [{ label := "Stars", value := formatNumber (ed.stars.getD 0)
         unit := none, trend := none }]
     else []) ++
    (if ed.forks ≠ none then
      [{ label := "Forks", value := formatNumber (ed.forks.getD 0)
         unit := none, trend := none }]
     else [])
  let metrics :=
    if metrics.length = 0 then
      [{ label := "Quality Score", value := toString (mathRound (content.final_score * 100))
         unit := some "%", trend := some { direction := "up", percentage := 10 } }]
    else metrics
  { block_id := base.block_id
    block_type := .metric
    content := .metric
      { metrics := metrics.take 4
        layout := if metrics.length ≤ 2 then "horizontal" else "grid"
        style := "prominent" }
    visibility := base.visibility
    style := base.style }

/-- `buildComparisonBlock`: the content is the "after" image against a fixed
placeholder "before". -/
def buildComparisonBlock (content : ScoredContent) (base : BaseBlock) : Block :=
  { block_id := base.block_id
    block_type := .comparison
    content := .comparison
      { before := { url := "/placeholder-before.jpg", label := "Before" }
        after := { url := jsOr content.file_path (jsOr content.extracted_data.thumbnail_url "")
                   label := "After" }
        slider := { initial_position := 50, orientation := "horizontal" }
        caption := if content.description ≠ "" then some content.description else none }
    visibility := base.visibility
    style := base.style }

/-- `buildGalleryBlock`: a single-item gallery. -/
def buildGalleryBlock (content : ScoredContent) (base : BaseBlock) : Block :=
  let items : List GalleryItem :=
    [{ url := jsOr content.file_path (jsOr content.extracted_data.thumbnail_url "")
       thumbnail_url := jsOr content.file_path (jsOr content.extracted_data.thumbnail_url "")
       caption := if content.description ≠ "" then some content.description else none
       media_type := "image" }]
  { block_id := base.block_id
    block_type := .gallery
    content := .gallery
      { items := items
        layout := { type := "grid", columns := 2 }
        lightbox := { enabled := true, show_captions := true } }
    visibility := base.visibility
    style := base.style }

/-- `buildTimelineBlock`; the `new Date().toISOString()` clock read is the
explicit `nowIso` parameter. -/
def buildTimelineBlock (content : ScoredContent) (base : BaseBlock) (nowIso : String) : Block :=
  let text := jsOr content.extracted_data.extracted_text content.description
  { block_id := base.block_id
    block_type := .timeline
    content := .timeline
      { entries := [{ date := nowIso
                      title := jsOrS content.title "Entry"
                      description := text.take 200
                      marker := { icon := "circle.fill", color := "#007AFF" } }]
        orientation := "vertical"
        style := "connected" }
    visibility := base.visibility
    style := base.style }

/-- `buildExternalLinkBlock`. -/
def buildExternalLinkBlock (content : ScoredContent) (base : BaseBlock) : Block :=
  let ed := content.extracted_data
  let platform : String :=
    if content.source = ContentSource.instagram then "instagram"
    else if content.source = ContentSource.tiktok then "tiktok"
    else if content.source = ContentSource.linkedin then "linkedin"
    else if content.source = ContentSource.github then "github"
    else if content.source = ContentSource.youtube then "youtube"
    else "website"
  let description := content.description
  let description :=
    if content.source = ContentSource.github ∧ truthyB ed.is_profile then
      let parts : List String :=
        (if truthyN ed.followers then [formatNumber (ed.followers.getD 0) ++ " followers"] else []) ++
        (if truthyN ed.public_repos then [toString (ed.public_repos.getD 0) ++ " repos"] else []) ++
        (if truthyS ed.location then [ed.location.getD ""] else [])
      if parts.length > 0 then String.intercalate " • " parts else description
    else if content.source = ContentSource.github ∧ ed.stars ≠ none then
      let parts : List String :=
        (if truthyS ed.language then [ed.language.getD ""] else []) ++
        ["⭐ " ++ formatNumber (ed.stars.getD 0)] ++
        (if truthyN ed.forks then ["🍴 " ++ formatNumber (ed.forks.getD 0)] else [])
      String.intercalate " • " parts
    else description
  { block_id := base.block_id
    block_type := .external_link
    content := .external_link
      { url := jsOr content.original_url ""
        platform := platform
        preview := { title := jsOrS content.title "External Link"
                     description := description
                     thumbnail_url := jsOrNull ed.thumbnail_url
                     favicon_url := none }
        style := "card"
        open_in := "browser" }
    visibility := base.visibility
    style := base.style }

/-- `buildScrollContainerBlock`: wraps one media block (with its own fresh
`block_id`) as sole child. -/
def buildScrollContainerBlock (content : ScoredContent) (base : BaseBlock)
    (childId : String) : Block :=
  let childBlock : ChildMediaBlock :=
    { block_id := childId
      block_type := .media
      content := buildMediaContent content
      visibility := base.visibility
      style := base.style }
  { block_id := base.block_id
    block_type := .scroll_container
    content := .scroll_container
      { scroll_direction := "horizontal"
        children := [childBlock]
        snap := { enabled := true, alignment := "center" }
        indicators := { «show» := true, style := "dots" } }
    visibility := base.visibility
    style := base.style }

/-- `buildHotspotMediaBlock`: base image, empty hotspot list. -/
def buildHotspotMediaBlock (content : ScoredContent) (base : BaseBlock) : Block :=
  { block_id := base.block_id
    block_type := .hotspot_media
    content := .hotspot_media
      { base_media := { url := jsOr content.file_path (jsOr content.extracted_data.thumbnail_url "")
                        media_type := "image" }
        hotspots := []
        interaction := { tap_behavior := "show_tooltip", animation := "pulse" } }
    visibility := base.visibility
    style := base.style }

/-- `buildCTABlock`: ignores the content, fixed "Contact" action. -/
def buildCTABlock (_content : ScoredContent) (base : BaseBlock) : Block :=
  { block_id := base.block_id
    block_type := .cta
    content := .cta
      { primary_action := { label := "Contact", action_type := "open_chat"
                            payload := [], style := some "filled" }
        secondary_action := none
        urgency_text := none }
    visibility := base.visibility
    style := base.style }

/-- `buildBlock` from `block-builder.ts`: shared base fields (visibility by
section/score), then dispatch on the block type.  The `fresh` counter models
the `generateBlockId` calls (the scroll container consumes two ids); the
switch's `default` branch is unreachable for the closed `BlockType`. -/
def buildBlock (content : ScoredContent) (blockType : BlockType)
    (sectionId : SectionId) (nowIso : String) (fresh : Nat) : Block × Nat :=
  let base : BaseBlock :=
    { block_id := mkBlockId fresh
      visibility :=
        { initial := if sectionId = SectionId.hook then .expanded else .collapsed
          priority := if content.final_score > mkRat 7 10 then .high else .medium }
      style := { padding := "medium" } }
  match blockType with
  | .media => (buildMediaBlock content base, fresh + 1)
  | .expandable_text => (buildExpandableTextBlock content base, fresh + 1)
  | .metric => (buildMetricBlock content base, fresh + 1)
  | .comparison => (buildComparisonBlock content base, fresh + 1)
  | .gallery => (buildGalleryBlock content base, fresh + 1)
  | .timeline => (buildTimelineBlock content base nowIso, fresh + 1)
  | .external_link => (buildExternalLinkBlock content base, fresh + 1)
  | .scroll_container => (buildScrollContainerBlock content base (mkBlockId (fresh + 1)), fresh + 2)
  | .hotspot_media => (buildHotspotMediaBlock content base, fresh + 1)
  | .cta => (buildCTABlock content base, fresh + 1)

/-! ## Portfolio assembly (`services/composition.ts`) -/

/-- The `SECTION_CONFIGS.find(c => c.id === sectionId)!` lookup with its
non-null assertion: the fallback value is dead code because the lookup
always succeeds (see `findSectionConfig_spec`). -/
def findSectionConfig (sectionId : SectionId) : SectionConfig :=
  match SECTION_CONFIGS.find? (fun c => c.id == sectionId) with
  | some config => config
  | none =>
    { id := sectionId, order := 0, required := false, minBlocks := 0, maxBlocks := 0,
      preferredTypes := [], contentFilter := fun _ _ => false }

/-- The blocks of a section: `contents.map` with `selectBlockType` +
`buildBlock`, threading the id counter.  `getD .media` models the value an
`undefined` block type would take through `buildBlock`'s `default` branch;
by the totality theorem below it is never used. -/
def buildBlocks (contents : List ScoredContent) (sectionId : SectionId)
    (category : Category) (nowIso : String) (fresh : Nat) : List Block × Nat :=
  match contents with
  | [] => ([], fresh)
  | content :: rest =>
    let blockType := (selectBlockType content sectionId category).getD BlockType.media
    let blockSt := buildBlock content blockType sectionId nowIso fresh
    let restSt := buildBlocks rest sectionId category nowIso blockSt.2
    (blockSt.1 :: restSt.1, restSt.2)

/-- `buildSection` from `composition.ts`. -/
def buildSection (sectionId : SectionId) (contents : List ScoredContent)
    (category : Category) (nowIso : String) (fresh : Nat) : Section × Nat :=
  let config := findSectionConfig sectionId
  let blocksSt := buildBlocks contents sectionId category nowIso fresh
  ({ section_id := sectionId
     order := config.order
     layout := if sectionId = SectionId.hook then "full" else "contained"
     visibility := { initial := "visible", min_content_required := config.minBlocks }
     blocks := blocksSt.1 }, blocksSt.2)

/-- `buildCTASection` from `composition.ts`: a fixed section with a single
generated `cta` block. -/
def buildCTASection (userId : String) (_title : String) (fresh : Nat) : Section × Nat :=
  let ctaBlock : Block :=
    { block_id := mkBlockId fresh
      block_type := .cta
      content := .cta
        { primary_action := { label := "Get in Touch", action_type := "open_chat"
                              payload := [("user_id", userId)], style := some "filled" }
          secondary_action := some { label := "Save Card", action_type := "save_card"
                                     payload := [], style := none }
          urgency_text := none }
      visibility := { initial := .expanded, priority := .high }
      style := { padding := "large" } }
  ({ section_id := .action
     order := 5
     layout := "contained"
     visibility := { initial := "visible", min_content_required := 1 }
     blocks := [ctaBlock] }, fresh + 1)

structure DeepLinks where
  enabled : Bool
  base_url : String
  section_format : String
  block_format : String
deriving DecidableEq, Repr

structure StatePreservation where
  enabled : Bool
  restore_scroll_position : Bool
  restore_expanded_state : Bool
deriving DecidableEq, Repr

structure QuickNavItem where
  label : String
  target_section : SectionId
  icon : String
deriving DecidableEq, Repr

structure QuickNav where
  enabled : Bool
  items : List QuickNavItem
deriving DecidableEq, Repr

structure Navigation where
  anchors : List (SectionId × String)
  deep_links : DeepLinks
  state_preservation : StatePreservation
  quick_nav : QuickNav
deriving DecidableEq, Repr

structure Analytics where
  enabled : Bool
  track_events : List String
deriving DecidableEq, Repr

/-- The string form of a section id (used in anchors). -/
def sectionIdStr : SectionId → String
  | .hook => "hook"
  | .credibility => "credibility"
  | .work => "work"
  | .process => "process"
  | .action => "action"

/-- The `sectionLabels` lookup of `buildNavigation`: label and icon. -/
def sectionLabels : SectionId → String × String
  | .hook => ("Overview", "star.fill")
  | .credibility => ("About", "person.fill")
  | .work => ("Work", "briefcase.fill")
  | .process => ("Process", "gearshape.fill")
  | .action => ("Contact", "message.fill")

/-- `buildNavigation` from `composition.ts`. -/
def buildNavigation (portfolioId : String) (sections : List Section) : Navigation :=
  { anchors := sections.map (fun s => (s.section_id, "section_" ++ sectionIdStr s.section_id))
    deep_links :=
      { enabled := true
        base_url := "reshuffle://portfolio/" ++ portfolioId
        section_format := "reshuffle://portfolio/" ++ portfolioId ++ "/\x7bsection_id\x7d"
        block_format := "reshuffle://portfolio/" ++ portfolioId ++ "/block/\x7bblock_id\x7d" }
    state_preservation :=
      { enabled := true, restore_scroll_position := true, restore_expanded_state := true }
    quick_nav :=
      { enabled := true
        items := sections.map (fun s =>
          { label := (sectionLabels s.section_id).1
            target_section := s.section_id
            icon := (sectionLabels s.section_id).2 }) } }

/-- `buildAnalytics` from `composition.ts`. -/
def buildAnalytics : Analytics :=
  { enabled := true
    track_events := ["portfolio_view", "section_view", "block_interaction",
                     "cta_click", "external_link_click", "share"] }

structure PortfolioMeta where
  title : String
  subtitle : String
  created_at : String
  updated_at : String
  language : String
  theme : String
deriving DecidableEq, Repr

structure Portfolio where
  portfolio_id : String
  user_id : String
  category : Category
  version : String
  meta : PortfolioMeta
  sections : List Section
  navigation : Navigation
  analytics : Analytics
deriving DecidableEq, Repr

/-- `ComposeOptions` from `composition.ts`. -/
structure ComposeOptions where
  userId : String
  category : Category
  title : String
  subtitle : String

/-- Stable insertion of a section into an order-sorted list (ascending). -/
def insertByOrder (s : Section) : List Section → List Section
  | [] => [s]
  | t :: ts => if s.order ≤ t.order then s :: t :: ts else t :: insertByOrder s ts

/-- `sections.sort((a, b) => a.order - b.order)`: the stable ascending sort
by `order`. -/
def sortByOrder : List Section → List Section
  | [] => []
  | s :: ss => insertByOrder s (sortByOrder ss)

/-- One iteration of the section-building loop of `composePortfolio`. -/
def composeStep (assignments : Assignments) (options : ComposeOptions) (nowIso : String)
    (st : List Section × Nat) (config : SectionConfig) : List Section × Nat :=
  if config.id == SectionId.action then
    let ctaSt := buildCTASection options.userId options.title st.2
    (st.1 ++ [ctaSt.1], ctaSt.2)
  else
    let sectionContent := assignments.get config.id
    -- skip optional sections with no content
    if !config.required && sectionContent.length == 0 then st
    -- build the section even if empty (for required sections)
    else if sectionContent.length > 0 || config.required then
      let secSt := buildSection config.id sectionContent options.category nowIso st.2
      (st.1 ++ [secSt.1], secSt.2)
    else st

/-- `composePortfolio` from `composition.ts`.  `portfolioId` models
`generatePortfolioId()`, `nowIso` the `now()` timestamps, and `fresh` the
block-id counter. -/
def composePortfolio (scoredContent : List ScoredContent) (options : ComposeOptions)
    (portfolioId : String) (nowIso : String) (fresh : Nat) : Portfolio :=
  let assignments := assignContentToSections scoredContent options.category
  let sectionsSt := SECTION_CONFIGS.foldl (composeStep assignments options nowIso)
    (([] : List Section), fresh)
  let sections := sortByOrder sectionsSt.1
  { portfolio_id := portfolioId
    user_id := options.userId
    category := options.category
    version := "v1"
    meta := { title := options.title, subtitle := options.subtitle
              created_at := nowIso, updated_at := nowIso
              language := "en", theme := "auto" }
    sections := sections
    navigation := buildNavigation portfolioId sections
    analytics := buildAnalytics }

/-! ## Concrete inputs used by counterexamples and witnesses -/

/-- A github repository item with 150 stars (the C1 scenario). -/
def c1Item : NormalizedContent :=
  { content_id := "c1", type := .code, source := .github,
    extracted_data := { stars := some 150 } }

/-- A scored video item (hook candidate) for concrete composition runs. -/
def wVideoItem : ScoredContent :=
  { content_id := "v1", type := .video, source := .upload,
    scores := { relevance := 0, quality := 0, credibility := 0, engagement := 0, freshness := 0 },
    final_score := 0 }

/-- A scored pdf item (credibility candidate) for concrete composition runs. -/
def wPdfItem : ScoredContent :=
  { content_id := "p1", type := .pdf, source := .upload,
    scores := { relevance := 0, quality := 0, credibility := 0, engagement := 0, freshness := 0 },
    final_score := 0 }

/-! ## Invariants of the section assignment -/

/-- Every assigned item's id is in the `usedContent` set. -/
def UsedInv (st : Assignments × List String) : Prop :=
  ∀ s : SectionId, ∀ c ∈ st.1.get s, c.content_id ∈ st.2

/-- No content id occurs in two different sections. -/
def DisjInv (st : Assignments × List String) : Prop :=
  ∀ s1 s2 : SectionId, s1 ≠ s2 →
    ∀ c1 ∈ st.1.get s1, ∀ c2 ∈ st.1.get s2, c1.content_id ≠ c2.content_id

/-! ## Helper lemmas: sub-score bounds -/

lemma scoreRelevance_nonneg (content : NormalizedContent) (category : Category) :
    0 ≤ scoreRelevance content category := by
  unfold scoreRelevance
  dsimp only
  apply le_min
  · apply add_nonneg
    · apply le_min
      · positivity
      · norm_num
    · positivity
  · norm_num

lemma scoreRelevance_le_one (content : NormalizedContent) (category : Category) :
    scoreRelevance content category ≤ 1 := by
  unfold scoreRelevance
  dsimp only
  exact le_trans (min_le_right _ _) (by norm_num)

lemma scoreQuality_nonneg (content : NormalizedContent) : 0 ≤ scoreQuality content := by
  unfold scoreQuality
  dsimp only
  apply le_min
  · positivity
  · norm_num

lemma scoreQuality_le_one (content : NormalizedContent) : scoreQuality content ≤ 1 := by
  unfold scoreQuality
  dsimp only
  exact le_trans (min_le_right _ _) (by norm_num)

lemma scoreCredibility_nonneg (content : NormalizedContent) : 0 ≤ scoreCredibility content := by
  unfold scoreCredibility
  dsimp only
  exact le_max_left _ _

lemma scoreCredibility_le_one (content : NormalizedContent) : scoreCredibility content ≤ 1 := by
  unfold scoreCredibility
  dsimp only
  exact max_le (by norm_num) (le_trans (min_le_right _ _) (by norm_num))

lemma scoreEngagement_nonneg (content : NormalizedContent) : 0 ≤ scoreEngagement content := by
  unfold scoreEngagement
  dsimp only
  exact le_max_left _ _

lemma scoreEngagement_le_one (content : NormalizedContent) : scoreEngagement content ≤ 1 := by
  unfold scoreEngagement
  dsimp only
  exact max_le (by norm_num) (le_trans (min_le_right _ _) (by norm_num))

lemma scoreFreshness_nonneg (content : NormalizedContent) (nowMs : Int) :
    0 ≤ scoreFreshness content nowMs := by
  unfold scoreFreshness
  dsimp only
  split_ifs <;> norm_num

lemma scoreFreshness_le_one (content : NormalizedContent) (nowMs : Int) :
    scoreFreshness content nowMs ≤ 1 := by
  unfold scoreFreshness
  dsimp only
  split_ifs <;> norm_num

lemma mathRound_unit_div {x : ℚ} (h0 : 0 ≤ x) (h1 : x ≤ 1) :
    0 ≤ (mathRound (x * 100) : ℚ) / 100 ∧ (mathRound (x * 100) : ℚ) / 100 ≤ 1 := by
  unfold mathRound
  constructor
  · apply div_nonneg _ (by norm_num)
    have h : (0 : ℤ) ≤ ⌊x * 100 + 5/10⌋ := Int.floor_nonneg.mpr (by linarith)
    exact_mod_cast h
  · rw [div_le_one (by norm_num)]
    have h2 : (⌊x * 100 + 5/10⌋ : ℚ) ≤ x * 100 + 5/10 := Int.floor_le _
    have h3 : (⌊x * 100 + 5/10⌋ : ℤ) ≤ 100 := by
      by_contra h
      push_neg at h
      have h4 : (101 : ℚ) ≤ (⌊x * 100 + 5/10⌋ : ℚ) := by exact_mod_cast h
      linarith
    exact_mod_cast h3

lemma weighted_sum_unit (category : Category) {r q cr e fr : ℚ}
    (hr0 : 0 ≤ r) (hr1 : r ≤ 1) (hq0 : 0 ≤ q) (hq1 : q ≤ 1)
    (hc0 : 0 ≤ cr) (hc1 : cr ≤ 1) (he0 : 0 ≤ e) (he1 : e ≤ 1)
    (hf0 : 0 ≤ fr) (hf1 : fr ≤ 1) :
    0 ≤ r * (CATEGORY_WEIGHTS category).relevance +
        q * (CATEGORY_WEIGHTS category).quality +
        cr * (CATEGORY_WEIGHTS category).credibility +
        e * (CATEGORY_WEIGHTS category).engagement +
        fr * (CATEGORY_WEIGHTS category).freshness ∧
      r * (CATEGORY_WEIGHTS category).relevance +
        q * (CATEGORY_WEIGHTS category).quality +
        cr * (CATEGORY_WEIGHTS category).credibility +
        e * (CATEGORY_WEIGHTS category).engagement +
        fr * (CATEGORY_WEIGHTS category).freshness ≤ 1 := by
  cases category <;> simp only [CATEGORY_WEIGHTS] <;> constructor <;> nlinarith

/-! ## Claims about the scorer -/

/-- C1 (counterexample): for the Tech scenario item (source github,
`extracted_data.stars = 150`) the credibility sub-score is not `1.0` as the
spec computes: the `+0.15` star tier requires more than 1000 stars, so the
code yields `0.3 + 0.2 + 0.1 + 0.1 = 0.7`. -/
theorem C1_counterexample : scoreCredibility c1Item ≠ 1 := by
  have h : scoreCredibility c1Item = 7/10 := by
    simp +decide only [scoreCredibility, c1Item, truthyN]
    norm_num
  rw [h]
  norm_num

/-- C1 (amended): for any content item with source github and
`extracted_data.stars = 150` (and whose type is neither pdf nor
external_link, which would add their own adjustments), the credibility
sub-score equals `clamp(0.3 + 0.2 + 0.1 + 0.1, 0, 1) = 0.7`; the `+0.15`
tier fires only above 1000 stars.  (Credibility does not depend on the
category, so this also covers the Tech scenario.) -/
theorem C1_credibility_github150 (content : NormalizedContent)
    (h1 : content.source = ContentSource.github)
    (h2 : content.extracted_data.stars = some 150)
    (h3 : content.type ≠ ContentType.pdf)
    (h4 : content.type ≠ ContentType.external_link) :
    scoreCredibility content = 7/10 := by
  unfold scoreCredibility
  simp +decide only [h1, h2, h3, h4, truthyN]
  norm_num

/-- C1 (witness): the amended statement evaluated at the concrete scenario
item. -/
theorem C1_witness :
    c1Item.source = ContentSource.github ∧ c1Item.extracted_data.stars = some 150 ∧
    c1Item.type ≠ ContentType.pdf ∧ c1Item.type ≠ ContentType.external_link ∧
    scoreCredibility c1Item = 7/10 :=
  ⟨rfl, rfl, by decide, by decide,
   C1_credibility_github150 c1Item rfl rfl (by decide) (by decide)⟩

/-- C2: `scoreContentBatch` returns the per-item scores sorted by
`final_score` descending, and the sort is stable: for every score value the
items carrying it appear in the same relative order as in the (scored)
input list. -/
theorem C2_batch_sorted_stable (contents : List NormalizedContent)
    (category : Category) (nowMs : Int) :
    (scoreContentBatch contents category nowMs).Pairwise
      (fun a b => b.final_score ≤ a.final_score) ∧
    ∀ q : ℚ,
      (scoreContentBatch contents category nowMs).filter
          (fun x => decide (x.final_score = q)) =
        (contents.map (fun content => scoreContent content category nowMs)).filter
          (fun x => decide (x.final_score = q)) := by
  have trans : ∀ a b c : ScoredContent,
      (fun a b : ScoredContent => decide (b.final_score ≤ a.final_score)) a b →
      (fun a b : ScoredContent => decide (b.final_score ≤ a.final_score)) b c →
      (fun a b : ScoredContent => decide (b.final_score ≤ a.final_score)) a c := by
    intro a b c hab hbc
    simp only [decide_eq_true_eq] at *
    exact le_trans hbc hab
  have total : ∀ a b : ScoredContent,
      (fun a b : ScoredContent => decide (b.final_score ≤ a.final_score)) a b ||
      (fun a b : ScoredContent => decide (b.final_score ≤ a.final_score)) b a := by
    intro a b
    simp only [Bool.or_eq_true, decide_eq_true_eq]
    exact le_total b.final_score a.final_score
  constructor
  · have h := List.sorted_mergeSort trans total
      (contents.map (fun content => scoreContent content category nowMs))
    unfold scoreContentBatch
    exact h.imp (fun hab => by simpa using hab)
  · intro q
    set l' := contents.map (fun content => scoreContent content category nowMs) with hl'
    set p := fun x : ScoredContent => decide (x.final_score = q) with hp
    have hcp : (l'.filter p).Pairwise
        (fun a b : ScoredContent => decide (b.final_score ≤ a.final_score)) := by
      apply List.pairwise_of_forall_mem_list
      intro a ha b hb
      have ha' := (List.mem_filter.mp ha).2
      have hb' := (List.mem_filter.mp hb).2
      simp only [hp, decide_eq_true_eq] at ha' hb' ⊢
      rw [ha', hb']
    have hsub : List.Sublist (l'.filter p) l' := List.filter_sublist l'
    have h1 : List.Sublist (l'.filter p) (l'.mergeSort
        (fun a b : ScoredContent => decide (b.final_score ≤ a.final_score))) :=
      List.sublist_mergeSort trans total hcp hsub
    have h2 : (l'.filter p).filter p = l'.filter p :=
      List.filter_eq_self.mpr (fun a ha => (List.mem_filter.mp ha).2)
    have h3 : List.Sublist (l'.filter p) ((l'.mergeSort
        (fun a b : ScoredContent => decide (b.final_score ≤ a.final_score))).filter p) := by
      rw [← h2]
      exact h1.filter p
    have hperm : ((l'.mergeSort
        (fun a b : ScoredContent => decide (b.final_score ≤ a.final_score))).filter p).Perm
        (l'.filter p) :=
      (List.mergeSort_perm l' _).filter p
    have hlen : (l'.filter p).length = ((l'.mergeSort
        (fun a b : ScoredContent => decide (b.final_score ≤ a.final_score))).filter p).length :=
      hperm.length_eq.symm
    unfold scoreContentBatch
    exact (h3.eq_of_length hlen).symm

/-- C3: the freshness sub-score is the exact step function of content age:
29 days → 1.0, 30 and 89 days → 0.8, 90 and 364 days → 0.6, 365 and 729
days → 0.4, 730 days → 0.2 (one day = 86 400 000 ms). -/
theorem C3_freshness_boundaries (content : NormalizedContent) :
    scoreFreshness content (content.created_at + 29 * 86400000) = 1 ∧
    scoreFreshness content (content.created_at + 30 * 86400000) = 8/10 ∧
    scoreFreshness content (content.created_at + 89 * 86400000) = 8/10 ∧
    scoreFreshness content (content.created_at + 90 * 86400000) = 6/10 ∧
    scoreFreshness content (content.created_at + 364 * 86400000) = 6/10 ∧
    scoreFreshness content (content.created_at + 365 * 86400000) = 4/10 ∧
    scoreFreshness content (content.created_at + 729 * 86400000) = 4/10 ∧
    scoreFreshness content (content.created_at + 730 * 86400000) = 2/10 := by
  unfold scoreFreshness
  norm_num

/-- C4: for every content item, category and clock value, each of the five
sub-scores and the rounded weighted `final_score` produced by `scoreContent`
lie in `[0, 1]`. -/
theorem C4_scores_unit_interval (content : NormalizedContent) (category : Category)
    (nowMs : Int) :
    (0 ≤ (scoreContent content category nowMs).scores.relevance ∧
      (scoreContent content category nowMs).scores.relevance ≤ 1) ∧
    (0 ≤ (scoreContent content category nowMs).scores.quality ∧
      (scoreContent content category nowMs).scores.quality ≤ 1) ∧
    (0 ≤ (scoreContent content category nowMs).scores.credibility ∧
      (scoreContent content category nowMs).scores.credibility ≤ 1) ∧
    (0 ≤ (scoreContent content category nowMs).scores.engagement ∧
      (scoreContent content category nowMs).scores.engagement ≤ 1) ∧
    (0 ≤ (scoreContent content category nowMs).scores.freshness ∧
      (scoreContent content category nowMs).scores.freshness ≤ 1) ∧
    (0 ≤ (scoreContent content category nowMs).final_score ∧
      (scoreContent content category nowMs).final_score ≤ 1) := by
  have hsc : (scoreContent content category nowMs).scores =
      { relevance := scoreRelevance content category
        quality := scoreQuality content
        credibility := scoreCredibility content
        engagement := scoreEngagement content
        freshness := scoreFreshness content nowMs } := rfl
  have hw := weighted_sum_unit category
    (scoreRelevance_nonneg content category) (scoreRelevance_le_one content category)
    (scoreQuality_nonneg content) (scoreQuality_le_one content)
    (scoreCredibility_nonneg content) (scoreCredibility_le_one content)
    (scoreEngagement_nonneg content) (scoreEngagement_le_one content)
    (scoreFreshness_nonneg content nowMs) (scoreFreshness_le_one content nowMs)
  have hfs : (scoreContent content category nowMs).final_score =
      (mathRound ((scoreRelevance content category * (CATEGORY_WEIGHTS category).relevance +
        scoreQuality content * (CATEGORY_WEIGHTS category).quality +
        scoreCredibility content * (CATEGORY_WEIGHTS category).credibility +
        scoreEngagement content * (CATEGORY_WEIGHTS category).engagement +
        scoreFreshness content nowMs * (CATEGORY_WEIGHTS category).freshness) * 100) : ℚ)
        / 100 := rfl
  refine ⟨?_, ?_, ?_, ?_, ?_, ?_⟩
  · rw [hsc]
    exact ⟨scoreRelevance_nonneg content category, scoreRelevance_le_one content category⟩
  · rw [hsc]
    exact ⟨scoreQuality_nonneg content, scoreQuality_le_one content⟩
  · rw [hsc]
    exact ⟨scoreCredibility_nonneg content, scoreCredibility_le_one content⟩
  · rw [hsc]
    exact ⟨scoreEngagement_nonneg content, scoreEngagement_le_one content⟩
  · rw [hsc]
    exact ⟨scoreFreshness_nonneg content nowMs, scoreFreshness_le_one content nowMs⟩
  · rw [hfs]
    exact mathRound_unit_div hw.1 hw.2

/-! ## Claims about the section assigner and block selector -/

lemma get_set_self (a : Assignments) (s : SectionId) (v : List ScoredContent) :
    (a.set s v).get s = v := by
  cases s <;> rfl

lemma get_set_ne (a : Assignments) {s t : SectionId} (h : s ≠ t) (v : List ScoredContent) :
    (a.set s v).get t = a.get t := by
  cases s <;> cases t <;> first | exact absurd rfl h | rfl

lemma not_mem_of_contains_false {l : List String} {a : String}
    (h : l.contains a = false) : a ∉ l := by
  intro hm
  have h2 : l.elem a = true := List.elem_iff.mpr hm
  rw [show l.contains a = l.elem a from rfl, h2] at h
  cases h

/-- Appending candidates whose ids are not yet used preserves both
assignment invariants. -/
lemma inv_extend {st : Assignments × List String} {sid : SectionId}
    {cands : List ScoredContent}
    (hc : ∀ c ∈ cands, c.content_id ∉ st.2)
    (hu : UsedInv st) (hd : DisjInv st) :
    UsedInv (st.1.set sid ((st.1.get sid) ++ cands),
             st.2 ++ cands.map (fun c => c.content_id)) ∧
    DisjInv (st.1.set sid ((st.1.get sid) ++ cands),
             st.2 ++ cands.map (fun c => c.content_id)) := by
  constructor
  · intro s c hcmem
    by_cases hs : sid = s
    · subst hs
      rw [get_set_self] at hcmem
      rcases List.mem_append.mp hcmem with h | h
      · exact List.mem_append_left _ (hu _ c h)
      · exact List.mem_append_right _ (List.mem_map_of_mem _ h)
    · rw [get_set_ne _ hs] at hcmem
      exact List.mem_append_left _ (hu s c hcmem)
  · intro s1 s2 hne c1 h1 c2 h2
    by_cases e1 : sid = s1
    · subst e1
      rw [get_set_self] at h1
      rw [get_set_ne _ hne] at h2
      rcases List.mem_append.mp h1 with h1' | h1'
      · exact hd _ _ hne c1 h1' c2 h2
      · intro heq
        exact hc c1 h1' (heq ▸ hu s2 c2 h2)
    · by_cases e2 : sid = s2
      · subst e2
        rw [get_set_self] at h2
        rw [get_set_ne _ e1] at h1
        rcases List.mem_append.mp h2 with h2' | h2'
        · exact hd _ _ hne c1 h1 c2 h2'
        · intro heq
          exact hc c2 h2' (heq ▸ hu s1 c1 h1)
      · rw [get_set_ne _ e1] at h1
        rw [get_set_ne _ e2] at h2
        exact hd _ _ hne c1 h1 c2 h2

lemma pass1Step_inv (l : List ScoredContent) (cat : Category)
    (st : Assignments × List String) (cfg : SectionConfig)
    (hu : UsedInv st) (hd : DisjInv st) :
    UsedInv (pass1Step l cat st cfg) ∧ DisjInv (pass1Step l cat st cfg) := by
  unfold pass1Step
  split
  · exact ⟨hu, hd⟩
  · apply inv_extend _ hu hd
    intro c hcmem
    have h1 := List.mem_of_mem_take hcmem
    have h2 := (List.mem_filter.mp (List.mem_filter.mp h1).1).2
    rw [Bool.not_eq_true'] at h2
    exact not_mem_of_contains_false h2

lemma pass2Step_inv (l : List ScoredContent)
    (st : Assignments × List String) (cfg : SectionConfig)
    (hu : UsedInv st) (hd : DisjInv st) :
    UsedInv (pass2Step l st cfg) ∧ DisjInv (pass2Step l st cfg) := by
  unfold pass2Step
  split
  · exact ⟨hu, hd⟩
  · split
    · exact ⟨hu, hd⟩
    · dsimp only
      split
      · apply inv_extend _ hu hd
        intro c hcmem
        have h1 := List.mem_of_mem_take hcmem
        have h2 := (List.mem_filter.mp h1).2
        rw [Bool.not_eq_true'] at h2
        exact not_mem_of_contains_false h2
      · exact ⟨hu, hd⟩

lemma foldl_inv {f : (Assignments × List String) → SectionConfig → (Assignments × List String)}
    (hf : ∀ st cfg, UsedInv st → DisjInv st → UsedInv (f st cfg) ∧ DisjInv (f st cfg))
    (cfgs : List SectionConfig) :
    ∀ st, UsedInv st → DisjInv st →
      UsedInv (cfgs.foldl f st) ∧ DisjInv (cfgs.foldl f st) := by
  induction cfgs with
  | nil => exact fun st hu hd => ⟨hu, hd⟩
  | cons cfg rest ih =>
    intro st hu hd
    simp only [List.foldl_cons]
    have h := hf st cfg hu hd
    exact ih _ h.1 h.2

/-- C7: the section assignment never places one content id in two different
sections: greedy fill marks every placed id used, and backfill only draws
from the still-unused pool. -/
theorem C7_assignment_disjoint (l : List ScoredContent) (cat : Category)
    (_hnodup : (l.map (fun c => c.content_id)).Nodup) :
    ∀ s1 s2 : SectionId, s1 ≠ s2 →
    ∀ c1 ∈ (assignContentToSections l cat).get s1,
    ∀ c2 ∈ (assignContentToSections l cat).get s2,
    c1.content_id ≠ c2.content_id := by
  have h0u : UsedInv (initialAssignments, ([] : List String)) := by
    intro s c hc
    cases s <;> simp [initialAssignments, Assignments.get] at hc
  have h0d : DisjInv (initialAssignments, ([] : List String)) := by
    intro s1 s2 hne c1 hc1
    cases s1 <;> simp [initialAssignments, Assignments.get] at hc1
  have h1 := foldl_inv (pass1Step_inv l cat) SECTION_CONFIGS
    (initialAssignments, ([] : List String)) h0u h0d
  have h2 := foldl_inv (pass2Step_inv l) SECTION_CONFIGS _ h1.1 h1.2
  exact h2.2

/-- C7 (witness): on a concrete two-item input, the video lands in hook, the
pdf in credibility, and their ids differ. -/
theorem C7_witness :
    (([wVideoItem, wPdfItem].map (fun c => c.content_id)).Nodup ∧
      SectionId.hook ≠ SectionId.credibility ∧
      wVideoItem ∈ (assignContentToSections [wVideoItem, wPdfItem]
        Category.Finance).get SectionId.hook ∧
      wPdfItem ∈ (assignContentToSections [wVideoItem, wPdfItem]
        Category.Finance).get SectionId.credibility) ∧
    wVideoItem.content_id ≠ wPdfItem.content_id := by
  have hnd : ([wVideoItem, wPdfItem].map (fun c => c.content_id)).Nodup := by decide
  have hne : SectionId.hook ≠ SectionId.credibility := by decide
  have hv : wVideoItem ∈ (assignContentToSections [wVideoItem, wPdfItem]
      Category.Finance).get SectionId.hook := by decide
  have hp : wPdfItem ∈ (assignContentToSections [wVideoItem, wPdfItem]
      Category.Finance).get SectionId.credibility := by decide
  exact ⟨⟨hnd, hne, hv, hp⟩,
    C7_assignment_disjoint [wVideoItem, wPdfItem] Category.Finance hnd
      SectionId.hook SectionId.credibility hne wVideoItem hv wPdfItem hp⟩

lemma findSectionConfig_spec (s : SectionId) :
    SECTION_CONFIGS.find? (fun c => c.id == s) = some (findSectionConfig s) := by
  cases s <;> rfl

/-- C6: `selectBlockType` is total: the section-config lookup always
succeeds, every section's preferred-type list is non-empty, and the
selection always produces a block type (never the `undefined` of a failed
lookup or of `preferredTypes[0]` on an empty list). -/
theorem C6_selectBlockType_total (content : ScoredContent) (sectionId : SectionId)
    (category : Category) :
    (selectBlockType content sectionId category).isSome = true ∧
    ∀ config ∈ SECTION_CONFIGS, config.preferredTypes ≠ [] := by
  constructor
  · unfold selectBlockType
    rw [findSectionConfig_spec]
    cases sectionId <;>
      split_ifs <;>
      simp +decide [findSectionConfig, typeMapping, SECTION_CONFIGS,
        hookConfig, credibilityConfig, workConfig, processConfig, actionConfig] <;>
      (split <;> simp)
  · intro config hc
    simp only [SECTION_CONFIGS, List.mem_cons, List.not_mem_nil, or_false] at hc
    rcases hc with h | h | h | h | h <;> subst h <;> simp +decide [hookConfig,
      credibilityConfig, workConfig, processConfig, actionConfig]

/-! ## Claims about the portfolio assembler -/

lemma foldl_configs {β : Type} (f : β → SectionConfig → β) (b : β) :
    SECTION_CONFIGS.foldl f b =
      f (f (f (f (f b hookConfig) credibilityConfig) workConfig) processConfig) actionConfig := rfl

lemma composeStep_action (a : Assignments) (o : ComposeOptions) (n : String)
    (st : List Section × Nat) :
    composeStep a o n st actionConfig =
      (st.1 ++ [(buildCTASection o.userId o.title st.2).1],
       (buildCTASection o.userId o.title st.2).2) := rfl

lemma composeStep_required (a : Assignments) (o : ComposeOptions) (n : String)
    (st : List Section × Nat) (cfg : SectionConfig)
    (h1 : cfg.id ≠ SectionId.action) (h2 : cfg.required = true) :
    composeStep a o n st cfg =
      (st.1 ++ [(buildSection cfg.id (a.get cfg.id) o.category n st.2).1],
       (buildSection cfg.id (a.get cfg.id) o.category n st.2).2) := by
  unfold composeStep
  simp +decide [beq_iff_eq, h1, h2]

lemma composeStep_process_empty (a : Assignments) (o : ComposeOptions) (n : String)
    (st : List Section × Nat) (h : a.get SectionId.process = []) :
    composeStep a o n st processConfig = st := by
  unfold composeStep
  simp +decide [processConfig, h]

lemma composeStep_process_ne (a : Assignments) (o : ComposeOptions) (n : String)
    (st : List Section × Nat) (h : a.get SectionId.process ≠ []) :
    composeStep a o n st processConfig =
      (st.1 ++ [(buildSection SectionId.process (a.get SectionId.process) o.category n st.2).1],
       (buildSection SectionId.process (a.get SectionId.process) o.category n st.2).2) := by
  unfold composeStep
  have hlen : (a.get SectionId.process).length ≠ 0 := by
    simpa [List.length_eq_zero] using h
  have hpos : 0 < (a.get SectionId.process).length := Nat.pos_of_ne_zero hlen
  simp +decide [processConfig, hlen, hpos]

lemma sortByOrder_four (s1 s2 s3 s5 : Section)
    (h1 : s1.order = 1) (h2 : s2.order = 2) (h3 : s3.order = 3) (h5 : s5.order = 5) :
    sortByOrder [s1, s2, s3, s5] = [s1, s2, s3, s5] := by
  simp +decide [sortByOrder, insertByOrder, h1, h2, h3, h5]

lemma sortByOrder_five (s1 s2 s3 s4 s5 : Section)
    (h1 : s1.order = 1) (h2 : s2.order = 2) (h3 : s3.order = 3) (h4 : s4.order = 4)
    (h5 : s5.order = 5) :
    sortByOrder [s1, s2, s3, s4, s5] = [s1, s2, s3, s4, s5] := by
  simp +decide [sortByOrder, insertByOrder, h1, h2, h3, h4, h5]

lemma buildSection_section_id (sid : SectionId) (contents : List ScoredContent)
    (cat : Category) (n : String) (fresh : Nat) :
    (buildSection sid contents cat n fresh).1.section_id = sid := rfl

/-- The sections of every composed portfolio: the four required sections in
order 1, 2, 3, 5 (with process at 4 when it received content), and the
action section carrying exactly the generated cta block with expanded/high
visibility. -/
lemma portfolio_facts (l : List ScoredContent) (o : ComposeOptions)
    (pid n : String) (fresh : Nat) :
    ((composePortfolio l o pid n fresh).sections.map (fun s => (s.section_id, s.order)) =
        [(SectionId.hook, 1), (SectionId.credibility, 2), (SectionId.work, 3),
         (SectionId.action, 5)] ∨
      (composePortfolio l o pid n fresh).sections.map (fun s => (s.section_id, s.order)) =
        [(SectionId.hook, 1), (SectionId.credibility, 2), (SectionId.work, 3),
         (SectionId.process, 4), (SectionId.action, 5)]) ∧
    ∀ s ∈ (composePortfolio l o pid n fresh).sections, s.section_id = SectionId.action →
      s.blocks.map (fun b => b.block_type) = [BlockType.cta] ∧
      s.blocks.map (fun b => (b.visibility.initial, b.visibility.priority)) =
        [(VisInitial.expanded, VisPriority.high)] := by
  by_cases h : (assignContentToSections l o.category).get SectionId.process = []
  · unfold composePortfolio
    dsimp only
    rw [foldl_configs,
      composeStep_required _ _ _ _ hookConfig (by decide) rfl,
      composeStep_required _ _ _ _ credibilityConfig (by decide) rfl,
      composeStep_required _ _ _ _ workConfig (by decide) rfl,
      composeStep_process_empty _ _ _ _ h,
      composeStep_action]
    dsimp only
    simp only [List.nil_append, List.cons_append]
    rw [sortByOrder_four]
    · constructor
      · exact Or.inl rfl
      · intro s hs hsec
        simp only [List.mem_cons, List.not_mem_nil, or_false] at hs
        rcases hs with h1 | h1 | h1 | h1 <;> subst h1
        · rw [buildSection_section_id] at hsec
          exact absurd hsec (by decide)
        · rw [buildSection_section_id] at hsec
          exact absurd hsec (by decide)
        · rw [buildSection_section_id] at hsec
          exact absurd hsec (by decide)
        · exact ⟨rfl, rfl⟩
    · rfl
    · rfl
    · rfl
    · rfl
  · unfold composePortfolio
    dsimp only
    rw [foldl_configs,
      composeStep_required _ _ _ _ hookConfig (by decide) rfl,
      composeStep_required _ _ _ _ credibilityConfig (by decide) rfl,
      composeStep_required _ _ _ _ workConfig (by decide) rfl,
      composeStep_process_ne _ _ _ _ h,
      composeStep_action]
    dsimp only
    simp only [List.nil_append, List.cons_append]
    rw [sortByOrder_five]
    · constructor
      · exact Or.inr rfl
      · intro s hs hsec
        simp only [List.mem_cons, List.not_mem_nil, or_false] at hs
        rcases hs with h1 | h1 | h1 | h1 | h1 <;> subst h1
        · rw [buildSection_section_id] at hsec
          exact absurd hsec (by decide)
        · rw [buildSection_section_id] at hsec
          exact absurd hsec (by decide)
        · rw [buildSection_section_id] at hsec
          exact absurd hsec (by decide)
        · rw [buildSection_section_id] at hsec
          exact absurd hsec (by decide)
        · exact ⟨rfl, rfl⟩
    · rfl
    · rfl
    · rfl
    · rfl
    · rfl

/-- C5: composing from an empty scored-content list yields a document whose
hook, credibility and work sections are present with empty block arrays, the
process section is absent, and the action section carries exactly one `cta`
block. -/
theorem C5_empty_compose (o : ComposeOptions) (pid n : String) (fresh : Nat) :
    (composePortfolio [] o pid n fresh).sections.map
      (fun s => (s.section_id, s.blocks.map (fun b => b.block_type))) =
      [(SectionId.hook, []), (SectionId.credibility, []), (SectionId.work, []),
       (SectionId.action, [BlockType.cta])] := by
  have h : (assignContentToSections [] o.category).get SectionId.process = [] := rfl
  unfold composePortfolio
  dsimp only
  rw [foldl_configs,
    composeStep_required _ _ _ _ hookConfig (by decide) rfl,
    composeStep_required _ _ _ _ credibilityConfig (by decide) rfl,
    composeStep_required _ _ _ _ workConfig (by decide) rfl,
    composeStep_process_empty _ _ _ _ h,
    composeStep_action]
  dsimp only
  simp only [List.nil_append, List.cons_append]
  rw [sortByOrder_four]
  · rfl
  · rfl
  · rfl
  · rfl
  · rfl

/-- C8: the sections of every composed portfolio are in strictly increasing
`order`; hook, credibility, work and action are always present, and process
may be absent. -/
theorem C8_sections_ordered (l : List ScoredContent) (o : ComposeOptions)
    (pid n : String) (fresh : Nat) :
    ((composePortfolio l o pid n fresh).sections.map (fun s => s.section_id) =
        [SectionId.hook, SectionId.credibility, SectionId.work, SectionId.action] ∨
      (composePortfolio l o pid n fresh).sections.map (fun s => s.section_id) =
        [SectionId.hook, SectionId.credibility, SectionId.work, SectionId.process,
         SectionId.action]) ∧
    (composePortfolio l o pid n fresh).sections.Pairwise (fun a b => a.order < b.order) := by
  obtain ⟨hids, _⟩ := portfolio_facts l o pid n fresh
  rcases hids with hP | hP
  · constructor
    · left
      have h1 : (composePortfolio l o pid n fresh).sections.map (fun s => s.section_id) =
          ([(SectionId.hook, 1), (SectionId.credibility, 2), (SectionId.work, 3),
            (SectionId.action, 5)] : List (SectionId × Nat)).map Prod.fst := by
        rw [← hP, List.map_map]
        rfl
      exact h1
    · have h2 : (composePortfolio l o pid n fresh).sections.map (fun s => s.order) =
          ([(SectionId.hook, 1), (SectionId.credibility, 2), (SectionId.work, 3),
            (SectionId.action, 5)] : List (SectionId × Nat)).map Prod.snd := by
        rw [← hP, List.map_map]
        rfl
      have hp : ((composePortfolio l o pid n fresh).sections.map (fun s => s.order)).Pairwise
          (· < ·) := by
        rw [h2]
        decide
      exact List.pairwise_map.mp hp
  · constructor
    · right
      have h1 : (composePortfolio l o pid n fresh).sections.map (fun s => s.section_id) =
          ([(SectionId.hook, 1), (SectionId.credibility, 2), (SectionId.work, 3),
            (SectionId.process, 4), (SectionId.action, 5)] : List (SectionId × Nat)).map
            Prod.fst := by
        rw [← hP, List.map_map]
        rfl
      exact h1
    · have h2 : (composePortfolio l o pid n fresh).sections.map (fun s => s.order) =
          ([(SectionId.hook, 1), (SectionId.credibility, 2), (SectionId.work, 3),
            (SectionId.process, 4), (SectionId.action, 5)] : List (SectionId × Nat)).map
            Prod.snd := by
        rw [← hP, List.map_map]
        rfl
      have hp : ((composePortfolio l o pid n fresh).sections.map (fun s => s.order)).Pairwise
          (· < ·) := by
        rw [h2]
        decide
      exact List.pairwise_map.mp hp

/-- C9: in every composed portfolio the action section contains exactly one
block, of type `cta`. -/
theorem C9_action_single_cta (l : List ScoredContent) (o : ComposeOptions)
    (pid n : String) (fresh : Nat) :
    ∀ s ∈ (composePortfolio l o pid n fresh).sections, s.section_id = SectionId.action →
      s.blocks.map (fun b => b.block_type) = [BlockType.cta] := by
  intro s hs hsec
  exact ((portfolio_facts l o pid n fresh).2 s hs hsec).1

/-- C9 (witness): the action section of a concrete empty-content portfolio. -/
theorem C9_witness :
    ((buildCTASection "u" "t" 0).1.blocks.map (fun b => b.block_type)) = [BlockType.cta] :=
  C9_action_single_cta [] ⟨"u", Category.Finance, "t", "s"⟩ "pid" "now" 0
    (buildCTASection "u" "t" 0).1 (by decide) rfl

/-- C10: the generated cta block of the action section always has
`visibility.initial = expanded` and `visibility.priority = high`, even
though `buildBlock`'s base rule for any non-hook section (action included)
would give `collapsed` initial visibility and a score-dependent priority. -/
theorem C10_generated_cta_visibility (l : List ScoredContent) (o : ComposeOptions)
    (pid n : String) (fresh : Nat) :
    (∀ s ∈ (composePortfolio l o pid n fresh).sections, s.section_id = SectionId.action →
      s.blocks.map (fun b => (b.visibility.initial, b.visibility.priority)) =
        [(VisInitial.expanded, VisPriority.high)]) ∧
    (∀ (c : ScoredContent) (bt : BlockType) (n2 : String) (f2 : Nat),
      (buildBlock c bt SectionId.action n2 f2).1.visibility.initial = VisInitial.collapsed ∧
      (buildBlock c bt SectionId.action n2 f2).1.visibility.priority =
        (if c.final_score > mkRat 7 10 then VisPriority.high else VisPriority.medium)) := by
  constructor
  · intro s hs hsec
    exact ((portfolio_facts l o pid n fresh).2 s hs hsec).2
  · intro c bt n2 f2
    cases bt <;> exact ⟨rfl, rfl⟩

/-- C10 (witness): the concrete cta section's block is expanded/high, while
`buildBlock` on the action section gives collapsed/medium for a low-score
item. -/
theorem C10_witness :
    ((buildCTASection "u" "t" 0).1 ∈
        (composePortfolio [] ⟨"u", Category.Finance, "t", "s"⟩ "pid" "now" 0).sections ∧
      (buildCTASection "u" "t" 0).1.blocks.map
        (fun b => (b.visibility.initial, b.visibility.priority)) =
        [(VisInitial.expanded, VisPriority.high)]) ∧
    (buildBlock wVideoItem BlockType.cta SectionId.action "now" 0).1.visibility.initial =
      VisInitial.collapsed ∧
    (buildBlock wVideoItem BlockType.cta SectionId.action "now" 0).1.visibility.priority =
      VisPriority.medium := by
  have hmem : (buildCTASection "u" "t" 0).1 ∈
      (composePortfolio [] ⟨"u", Category.Finance, "t", "s"⟩ "pid" "now" 0).sections := by
    decide
  have h2 := (C10_generated_cta_visibility [] ⟨"u", Category.Finance, "t", "s"⟩
    "pid" "now" 0).2 wVideoItem BlockType.cta "now" 0
  refine ⟨⟨hmem, (C10_generated_cta_visibility [] ⟨"u", Category.Finance, "t", "s"⟩
    "pid" "now" 0).1 (buildCTASection "u" "t" 0).1 hmem rfl⟩, h2.1, ?_⟩
  rw [h2.2]
  decide
